import Mathlib

/-!
Verification development for the minimarket search repository
(core modules: preprocessing.py, bm25_engine.py, geo_utils.py,
ranking.py, evaluation.py, config.py).

Modelling conventions:
* Python floats are modelled as real numbers; float arithmetic
  is modelled exactly (no rounding).
* Python dictionaries with numeric values accessed through
  d.get(key, 0) are modelled as total functions with default 0;
  dictionary key membership for the idf map is modelled through
  an Option-valued function (none = key absent).
* Python list indexing, including negative indices and the
  IndexError raised on an out-of-bounds access, is modelled by
  pyGet below; a raised exception is Option.none.
* Python string operations are modelled over ASCII data: the
  regular expression class \w is modelled as alphanumeric or
  underscore, \s as Char.isWhitespace.
-/

namespace SRUAS

/-! ### preprocessing.py -/

/-- Stopwords from preprocessing.py (STOPWORDS_ID). -/
def STOPWORDS_ID : List String :=
  ["yang", "di", "dan", "ke", "dari", "ini", "itu", "dengan", "untuk",
   "pada", "adalah", "sebagai", "dalam", "tidak", "akan", "juga", "atau",
   "ada", "mereka", "sudah", "saya", "seperti", "dapat", "jika", "hanya",
   "oleh", "saat", "harus", "antara", "setelah", "belum", "atas", "bawah",
   "rt", "rw", "no", "jl", "jalan", "kel", "kota", "kec"]

/-- Python regex word character \w (ASCII fragment): alphanumeric or underscore. -/
def pyWordChar (c : Char) : Bool := c.isAlphanum || c == '_'

/-- One character step of re.sub(r"[^\w\s\-]", " ", text): any character that
is not a word character, whitespace or hyphen becomes a space. -/
def cleanChar (c : Char) : Char :=
  if pyWordChar c || c.isWhitespace || c == '-' then c else ' '

/-- re.sub(r"\s+", " ", text): collapse every whitespace run to one space. -/
def collapseWs : List Char → List Char
  | [] => []
  | [c] => if c.isWhitespace then [' '] else [c]
  | c :: d :: rest =>
    if c.isWhitespace && d.isWhitespace then collapseWs (d :: rest)
    else (if c.isWhitespace then ' ' else c) :: collapseWs (d :: rest)

/-- Python str.strip(): drop leading and trailing whitespace. -/
def stripChars (l : List Char) : List Char :=
  ((l.dropWhile Char.isWhitespace).reverse.dropWhile Char.isWhitespace).reverse

/-- Python str.lower(), character by character. -/
def pyLower (s : String) : String :=
  String.mk (s.toList.map Char.toLower)

/-- Python str.strip(). -/
def pyStrip (s : String) : String :=
  String.mk (stripChars s.toList)

/-- clean_text from preprocessing.py: lowercase, replace characters outside
[\w\s\-] by spaces, collapse whitespace, strip.  (The isinstance(text, str)
guard is vacuous here since the input is already a string.) -/
def clean_text (text : String) : String :=
  String.mk (stripChars (collapseWs ((pyLower text).toList.map cleanChar)))

/-- The worker of Python str.split() with no argument: split on whitespace
runs, never yielding empty tokens; acc holds the current token reversed. -/
def splitWsAux : List Char → List Char → List String
  | [], acc => if acc.isEmpty then [] else [String.mk acc.reverse]
  | c :: rest, acc =>
    if c.isWhitespace then
      if acc.isEmpty then splitWsAux rest []
      else String.mk acc.reverse :: splitWsAux rest []
    else splitWsAux rest (c :: acc)

/-- tokenize from preprocessing.py: Python str.split() with no argument,
which splits on whitespace runs and never yields empty tokens. -/
def tokenize (text : String) : List String :=
  if text = "" then [] else splitWsAux text.toList []

/-- remove_stopwords from preprocessing.py. -/
def remove_stopwords (tokens : List String) : List String :=
  tokens.filter (fun token => !(STOPWORDS_ID.contains token) && decide (1 < token.length))

/-- preprocess_text from preprocessing.py. -/
def preprocess_text (text : String) (remove_stop : Bool) : List String :=
  let cleaned := clean_text text
  let tokens := tokenize cleaned
  if remove_stop then remove_stopwords tokens else tokens

/-- The very_common set used by preprocess_query. -/
def very_common : List String := ["yang", "di", "dan", "ke", "dari", "ini", "itu", "dengan"]

/-- preprocess_query from preprocessing.py: permissive stopword policy. -/
def preprocess_query (query : String) : List String :=
  let cleaned := clean_text query
  let tokens := tokenize cleaned
  tokens.filter (fun t => !(very_common.contains t) && decide (1 < t.length))

/-- Python substring matching at the head of a character list. -/
def pyMatchAt : List Char → List Char → Bool
  | [], _ => true
  | _ :: _, [] => false
  | a :: xs, b :: ys => a == b && pyMatchAt xs ys

/-- Python substring containment over character lists. -/
def pySubList (needle : List Char) : List Char → Bool
  | [] => needle.isEmpty
  | c :: rest => pyMatchAt needle (c :: rest) || pySubList needle rest

/-- The Python expression needle in hay on strings. -/
def pyIn (needle hay : String) : Bool := pySubList needle.toList hay.toList

/-! ### Python list indexing -/

/-- Python semantics of l[i] for an arbitrary integer index: non-negative
indices address from the front, negative indices address from the back,
and an out-of-bounds access raises IndexError (modelled as none). -/
def pyGet {α : Type} (l : List α) (i : Int) : Option α :=
  if 0 ≤ i then l.get? i.toNat
  else if 0 ≤ i + l.length then l.get? (i + l.length).toNat else none

/-! ### config.py and bm25_engine.py -/

noncomputable section

/-- BM25_K1 from config.py. -/
def BM25_K1 : ℝ := 1.5

/-- BM25_B from config.py. -/
def BM25_B : ℝ := 0.75

/-- MAX_DISTANCE_KM from config.py. -/
def MAX_DISTANCE_KM : ℝ := 10

/-- DEFAULT_K from config.py. -/
def DEFAULT_K : Int := 10

/-- The mutable attributes of the BM25Engine class. -/
structure BM25Engine where
  k1 : ℝ
  b : ℝ
  corpus : List (List String)
  doc_lengths : List ℕ
  avgdl : ℝ
  N : ℕ
  doc_freqs : String → ℕ
  idf : String → Option ℝ
  doc_term_freqs : List (String → ℕ)

/-- BM25Engine.__init__ with explicit k1 and b. -/
def BM25Engine.init (k1 b : ℝ) : BM25Engine :=
  { k1 := k1, b := b, corpus := [], doc_lengths := [], avgdl := 0, N := 0,
    doc_freqs := fun _ => 0, idf := fun _ => none, doc_term_freqs := [] }

/-- BM25Engine() with the config.py defaults. -/
def BM25Engine.mkDefault : BM25Engine := BM25Engine.init BM25_K1 BM25_B

/-- One document of the document-frequency loop body: every distinct term of
the document has its count raised by one (the source iterates over set(doc),
so each term of the document counts once). -/
def dfStep (df : String → ℕ) (doc : List String) : String → ℕ :=
  fun t => if t ∈ doc then df t + 1 else df t

/-- The document-frequency map built by BM25Engine.fit, starting from the
freshly reset empty dictionary. -/
def computeDf (corpus : List (List String)) : String → ℕ :=
  corpus.foldl dfStep (fun _ => 0)

/-- The IDF formula of BM25Engine._calculate_idf:
ln((N - df + 0.5) / (df + 0.5) + 1). -/
def idfFormula (N df : ℕ) : ℝ :=
  Real.log (((N : ℝ) - (df : ℝ) + 0.5) / ((df : ℝ) + 0.5) + 1)

/-- BM25Engine._calculate_idf: the idf dictionary has exactly the keys of
doc_freqs (modelled as none off those keys). -/
def BM25Engine.calculate_idf (N : ℕ) (doc_freqs : String → ℕ) : String → Option ℝ :=
  fun term => if doc_freqs term = 0 then none else some (idfFormula N (doc_freqs term))

/-- BM25Engine.fit.  The source first stores corpus and N, then returns early
on an empty corpus WITHOUT touching any of the other derived fields; on a
non-empty corpus every derived field is rebuilt from the new corpus alone. -/
def BM25Engine.fit (s : BM25Engine) (corpus : List (List String)) : BM25Engine :=
  if corpus = [] then { s with corpus := corpus, N := corpus.length }
  else
    let doc_lengths := corpus.map List.length
    let doc_freqs := computeDf corpus
    { k1 := s.k1, b := s.b, corpus := corpus, N := corpus.length,
      doc_lengths := doc_lengths,
      avgdl := ((doc_lengths.foldl (· + ·) 0 : ℕ) : ℝ) / (corpus.length : ℝ),
      doc_freqs := doc_freqs,
      idf := BM25Engine.calculate_idf corpus.length doc_freqs,
      doc_term_freqs := corpus.map (fun doc => fun t => doc.count t) }

/-- One iteration of the query loop in BM25Engine.score: a term outside the
idf keys or absent from the document contributes nothing; otherwise the BM25
term weight idf * tf * (k1 + 1) / (tf + k1 * (1 - b + b * dl / avgdl)) is
added to the accumulator. -/
def BM25Engine.scoreStep (s : BM25Engine) (doc_len : ℕ) (term_freqs : String → ℕ)
    (acc : ℝ) (term : String) : ℝ :=
  match s.idf term with
  | none => acc
  | some idfv =>
    let tf := term_freqs term
    if tf = 0 then acc
    else acc + idfv * ((tf : ℝ) * (s.k1 + 1)) /
      ((tf : ℝ) + s.k1 * (1 - s.b + s.b * (doc_len : ℝ) / s.avgdl))

/-- BM25Engine.score.  The guard in the source only catches doc_idx >= N;
any remaining index is used directly for the Python list accesses
self.doc_lengths[doc_idx] and self.doc_term_freqs[doc_idx], hence pyGet. -/
def BM25Engine.score (s : BM25Engine) (query : List String) (doc_idx : Int) : Option ℝ :=
  if (s.N : Int) ≤ doc_idx then some 0
  else
    match pyGet s.doc_lengths doc_idx, pyGet s.doc_term_freqs doc_idx with
    | some doc_len, some term_freqs =>
      some (query.foldl (s.scoreStep doc_len term_freqs) 0)
    | _, _ => none

/-- BM25Engine.get_all_scores: one score per document index in range(N).
For every state reachable by init and fit these indices are valid, so the
Option never misses; getD 0 is only a typing device. -/
def BM25Engine.get_all_scores (s : BM25Engine) (query : List String) : List ℝ :=
  (List.range s.N).map (fun (idx : ℕ) => (s.score query (idx : Int)).getD 0)

/-! ### geo_utils.py -/

/-- EARTH_RADIUS_KM from geo_utils.py. -/
def EARTH_RADIUS_KM : ℝ := 6371.0

/-- math.radians. -/
def radiansOf (x : ℝ) : ℝ := x * (Real.pi / 180)

/-- haversine_distance from geo_utils.py. -/
def haversine_distance (lat1 lon1 lat2 lon2 : ℝ) : ℝ :=
  let lat1_rad := radiansOf lat1
  let lat2_rad := radiansOf lat2
  let lon1_rad := radiansOf lon1
  let lon2_rad := radiansOf lon2
  let dlat := lat2_rad - lat1_rad
  let dlon := lon2_rad - lon1_rad
  let a := Real.sin (dlat / 2) ^ 2 +
    Real.cos lat1_rad * Real.cos lat2_rad * Real.sin (dlon / 2) ^ 2
  let c := 2 * Real.arcsin (Real.sqrt a)
  EARTH_RADIUS_KM * c

/-- calculate_distance_score from geo_utils.py, with the max_distance
argument made explicit (the source defaults it to MAX_DISTANCE_KM). -/
def calculate_distance_score (distance : ℝ) (max_distance : ℝ) : ℝ :=
  if max_distance ≤ distance then 0
  else max 0 (min 1 (1 - distance / max_distance))

/-! ### evaluation.py (Evaluator) -/

/-- Evaluator.precision_at_k, with k passed explicitly (the source defaults
it to the evaluator's stored k, itself defaulting to DEFAULT_K).  Python's
relevance[:k] for k > 0 is List.take. -/
def Evaluator.precision_at_k (relevance : List Bool) (k : Int) : ℚ :=
  if k ≤ 0 ∨ relevance = [] then 0
  else ((relevance.take k.toNat).countP id : ℚ) / (k : ℚ)

/-! ### ranking.py -/

/-- WEIGHTS from config.py. -/
structure Weights where
  bm25_score : ℝ
  distance_score : ℝ
  rating_score : ℝ
  popularity_score : ℝ

/-- The default weight configuration of config.py. -/
def WEIGHTS : Weights :=
  { bm25_score := 0.4, distance_score := 0.3, rating_score := 0.2, popularity_score := 0.1 }

/-- One dataset record with the columns the core reads.  The two numeric
quality fields may be missing (NaN in the dataframe); a missing value is
modelled as none.  NaN comparisons in Python are always false, and the
code only reads these fields through fillna(0) or through comparisons, so
the Option model is exact where the claims look. -/
structure Row where
  nama_tempat : String
  alamat_tempat : String
  nama_kelurahan : String
  nama_kecamatan : String
  store : String
  latitude : ℝ
  longitude : ℝ
  rating_tempat : Option ℝ
  user_ratings_total : Option ℝ

/-- create_document_field from preprocessing.py: the five text fields joined
by single spaces (every Row carries all five columns). -/
def create_document_field (r : Row) : String :=
  r.nama_tempat ++ " " ++ r.alamat_tempat ++ " " ++ r.nama_kelurahan ++ " " ++
    r.nama_kecamatan ++ " " ++ r.store

/-- The attributes of the HeuristicRanker class. -/
structure HeuristicRanker where
  weights : Weights
  bm25 : BM25Engine
  df : Option (List Row)
  corpus : List (List String)

/-- HeuristicRanker.__init__ with explicit weights. -/
def HeuristicRanker.init (w : Weights) : HeuristicRanker :=
  { weights := w, bm25 := BM25Engine.mkDefault, df := none, corpus := [] }

/-- HeuristicRanker.fit: rebuild the corpus from the dataframe rows with the
strict preprocessing policy and fit the BM25 engine. -/
def HeuristicRanker.fit (s : HeuristicRanker) (df : List Row) : HeuristicRanker :=
  let corpus := df.map (fun r => preprocess_text (create_document_field r) true)
  { s with df := some df, corpus := corpus, bm25 := s.bm25.fit corpus }

/-- Python min() over a list. -/
def listMin (l : List ℝ) : ℝ :=
  match l with
  | [] => 0
  | x :: xs => xs.foldl min x

/-- Python max() over a list. -/
def listMax (l : List ℝ) : ℝ :=
  match l with
  | [] => 0
  | x :: xs => xs.foldl max x

/-- HeuristicRanker._normalize_scores: min-max normalization with the
all-equal case mapped to the constant 0.5. -/
def HeuristicRanker.normalize_scores (scores : List ℝ) : List ℝ :=
  if scores = [] then []
  else
    let min_score := listMin scores
    let max_score := listMax scores
    if max_score = min_score then scores.map (fun _ => 0.5)
    else scores.map (fun s => (s - min_score) / (max_score - min_score))

/-- pandas Series.max() with skipna semantics over an optional column:
the maximum of the present values, none when no value is present. -/
def optMax (l : List (Option ℝ)) : Option ℝ :=
  l.foldl (fun acc x =>
    match acc, x with
    | none, y => y
    | some a, none => some a
    | some a, some y => some (max a y)) none

/-- One row of the result dataframe built by HeuristicRanker.rank. -/
structure ResultRow where
  row : Row
  bm25_score : ℝ
  bm25_score_norm : ℝ
  distance_km : ℝ
  distance_score : ℝ
  rating_score : ℝ
  popularity_score : ℝ
  final_score : ℝ
  rank : ℕ

/-- Placeholder row used only to type list lookups at provably valid indices. -/
def defaultRow : Row :=
  { nama_tempat := "", alamat_tempat := "", nama_kelurahan := "", nama_kecamatan := "",
    store := "", latitude := 0, longitude := 0, rating_tempat := none,
    user_ratings_total := none }

/-- A concrete Alfamart record used in concrete evaluations. -/
def alfamartRow : Row :=
  { nama_tempat := "toko", alamat_tempat := "jalan", nama_kelurahan := "kel",
    nama_kecamatan := "kec", store := "Alfamart", latitude := 0, longitude := 0,
    rating_tempat := none, user_ratings_total := none }

/-- A concrete scored result with raw BM25 score 4. -/
def witnessResultA : ResultRow :=
  { row := alfamartRow, bm25_score := 4, bm25_score_norm := 0, distance_km := 0,
    distance_score := 0, rating_score := 0, popularity_score := 0, final_score := 0,
    rank := 0 }

/-- A concrete scored result with raw BM25 score 0. -/
def witnessResultB : ResultRow :=
  { row := alfamartRow, bm25_score := 0, bm25_score_norm := 0, distance_km := 0,
    distance_score := 0, rating_score := 0, popularity_score := 0, final_score := 0,
    rank := 0 }

/-- The comparison used by sort_values('final_score', ascending=False): a row
precedes another when its fused score is at least as large. -/
def finalGe (a b : ResultRow) : Prop := b.final_score ≤ a.final_score

instance : DecidableRel finalGe := fun _ _ => Real.decidableLE _ _

instance : IsTotal ResultRow finalGe := ⟨fun a b => le_total b.final_score a.final_score⟩

instance : IsTrans ResultRow finalGe := ⟨fun _ _ _ h1 h2 => le_trans h2 h1⟩

/-- The score-computation block of HeuristicRanker.rank: the result
dataframe before filtering, one annotated row per dataset row, in dataset
order (the rank column is written later and starts at 0 here). -/
def HeuristicRanker.annotate (s : HeuristicRanker) (rows : List Row)
    (query_tokens : List String) (user_lat user_lon : Option ℝ) : List ResultRow :=
  let bm25_scores := s.bm25.get_all_scores query_tokens
  let norms := HeuristicRanker.normalize_scores bm25_scores
  let distances : List ℝ :=
    match user_lat, user_lon with
    | some la, some lo => rows.map (fun r => haversine_distance la lo r.latitude r.longitude)
    | _, _ => rows.map (fun _ => 0)
  let distance_scores : List ℝ :=
    match user_lat, user_lon with
    | some _, some _ => distances.map (fun d => calculate_distance_score d MAX_DISTANCE_KM)
    | _, _ => rows.map (fun _ => 0.5)
  let max_ratings := optMax (rows.map (fun r => r.user_ratings_total))
  (List.range rows.length).map (fun i =>
    let r := rows.getD i defaultRow
    let bn := norms.getD i 0
    let ds := distance_scores.getD i 0
    let rs := (r.rating_tempat.getD 0) / 5
    let ps : ℝ :=
      match max_ratings with
      | some m => if 0 < m then (r.user_ratings_total.getD 0) / m else 0
      | none => 0
    { row := r, bm25_score := bm25_scores.getD i 0, bm25_score_norm := bn,
      distance_km := distances.getD i 0, distance_score := ds,
      rating_score := rs, popularity_score := ps,
      final_score := s.weights.bm25_score * bn + s.weights.distance_score * ds +
        s.weights.rating_score * rs + s.weights.popularity_score * ps,
      rank := 0 })

/-- The two filter steps of HeuristicRanker.rank: the store filter (skipped
for a falsy filter string or the sentinel "Semua") and, when
require_text_match is set, the BM25 > 0 text-match filter. -/
def HeuristicRanker.applyFilters (annotated : List ResultRow)
    (store_filter : Option String) (require_text_match : Bool) : List ResultRow :=
  let filtered1 :=
    match store_filter with
    | some f =>
      if f != "" && f != "Semua" then annotated.filter (fun rr => rr.row.store == f)
      else annotated
    | none => annotated
  if require_text_match then filtered1.filter (fun rr => decide (0 < rr.bm25_score))
  else filtered1

/-- The tail of HeuristicRanker.rank: sort by final score descending,
truncate to top_k, reset the index, and write the 1-based rank column. -/
def HeuristicRanker.finalize (l : List ResultRow) (top_k : ℕ) : List ResultRow :=
  let sorted := List.insertionSort finalGe l
  let topped := sorted.take top_k
  topped.zipWith (fun rr k => { rr with rank := k }) (List.range' 1 topped.length)

/-- HeuristicRanker.rank.  The sort on the fused score is pandas
sort_values; it is modelled here by a concrete comparison sort that orders
by descending final score.  NOTE: pandas sort_values defaults to
kind='quicksort', which numpy documents as NOT stable, so the relative
order of rows with equal fused scores is not a contract of the source; the
model fixes one concrete order and no theorem about tie order is read off
this model. -/
def HeuristicRanker.rank (s : HeuristicRanker) (query : String)
    (user_lat user_lon : Option ℝ) (store_filter : Option String)
    (top_k : ℕ) (require_text_match : Bool) : List ResultRow :=
  match s.df with
  | none => []
  | some rows =>
    if rows.length = 0 then []
    else
      HeuristicRanker.finalize
        (HeuristicRanker.applyFilters
          (s.annotate rows (preprocess_query query) user_lat user_lon)
          store_filter require_text_match)
        top_k

/-- np.median: middle element of the ascending sort for odd length, mean of
the two middle elements for even length. -/
def npMedian (l : List ℝ) : ℝ :=
  let s := List.insertionSort (· ≤ ·) l
  if l.length % 2 = 1 then s.getD (l.length / 2) 0
  else (s.getD (l.length / 2 - 1) 0 + s.getD (l.length / 2) 0) / 2

/-- np.percentile(l, 75) with the default linear interpolation: the virtual
index is h = 0.75 * (n - 1); the value interpolates between the floor and
ceiling positions of the ascending sort. -/
def npPercentile75 (l : List ℝ) : ℝ :=
  let s := List.insertionSort (· ≤ ·) l
  let num := 3 * (l.length - 1)
  let lo := num / 4
  let hi := if num % 4 = 0 then lo else lo + 1
  s.getD lo 0 + (s.getD hi 0 - s.getD lo 0) * (((num : ℝ) / 4) - ((lo : ℕ) : ℝ))

/-- The loop body of HeuristicRanker.determine_relevance for one row: the
source starts from is_relevant = True and lets each rule only set it to
False, so the rules compose by sequential overwriting. -/
def HeuristicRanker.isRelevantRow (has_query has_location mentions_alfamart mentions_indomaret : Bool)
    (bm25_threshold final_score_threshold popularity_threshold min_rating strict_max_distance : ℝ)
    (rr : ResultRow) : Bool :=
  let r1 : Bool :=
    if has_query then
      if rr.bm25_score ≤ bm25_threshold then false else true
    else
      let c1 : ℕ := if final_score_threshold ≤ rr.final_score then 1 else 0
      let c2 : ℕ :=
        match rr.row.rating_tempat with
        | some v => if min_rating ≤ v then 1 else 0
        | none => 0
      let c3 : ℕ :=
        match rr.row.user_ratings_total with
        | some v => if popularity_threshold ≤ v then 1 else 0
        | none => 0
      if c1 + c2 + c3 < 2 then false else true
  let r2 :=
    if has_location then (if strict_max_distance < rr.distance_km then false else r1) else r1
  let r3 := if mentions_alfamart && !(pyIn "alfamart" (pyLower rr.row.store)) then false else r2
  if mentions_indomaret && !(pyIn "indomaret" (pyLower rr.row.store)) then false else r3

/-- HeuristicRanker.determine_relevance.  A missing rating or popularity
value compares as False in Python (NaN); the Option match in isRelevantRow
reproduces that.  popularity_values applies fillna(0) as the source does. -/
def HeuristicRanker.determine_relevance (result_df : List ResultRow) (query : String)
    (user_lat user_lon : Option ℝ) (max_distance : Option ℝ) : List Bool :=
  let maxd := max_distance.getD MAX_DISTANCE_KM
  let query_lower := pyLower query
  let has_query : Bool := pyStrip query != ""
  let has_location : Bool := user_lat.isSome && user_lon.isSome
  let mentions_alfamart := pyIn "alfamart" query_lower || pyIn "alfa" query_lower
  let mentions_indomaret := pyIn "indomaret" query_lower || pyIn "indo" query_lower
  let bm25_scores := result_df.map (fun rr => rr.bm25_score)
  let bm25_threshold := if !bm25_scores.isEmpty && has_query then npMedian bm25_scores else 0
  let final_scores := result_df.map (fun rr => rr.final_score)
  let final_score_threshold := if !final_scores.isEmpty then npPercentile75 final_scores else 0
  let popularity_values := result_df.map (fun rr => rr.row.user_ratings_total.getD 0)
  let popularity_threshold := if !popularity_values.isEmpty then npMedian popularity_values else 0
  let min_rating : ℝ := 4.0
  let strict_max_distance := maxd * 0.5
  result_df.map (HeuristicRanker.isRelevantRow has_query has_location mentions_alfamart
    mentions_indomaret bm25_threshold final_score_threshold popularity_threshold
    min_rating strict_max_distance)

end

/-! ### General lemmas about the document-frequency fold -/

theorem dfStep_foldl (c : List (List String)) :
    ∀ (f : String → ℕ) (t : String),
      (c.foldl dfStep f) t = f t + c.countP (fun doc => decide (t ∈ doc)) := by
  induction c with
  | nil => intro f t; simp
  | cons d cs ih =>
    intro f t
    simp only [List.foldl_cons, List.countP_cons]
    rw [ih]
    unfold dfStep
    by_cases h : t ∈ d <;> simp [h] <;> omega

theorem computeDf_eq (c : List (List String)) (t : String) :
    computeDf c t = c.countP (fun doc => decide (t ∈ doc)) := by
  unfold computeDf; rw [dfStep_foldl]; simp

theorem computeDf_le (c : List (List String)) (t : String) :
    computeDf c t ≤ c.length := by
  rw [computeDf_eq]; exact List.countP_le_length _

theorem computeDf_pos_iff (c : List (List String)) (t : String) :
    computeDf c t ≠ 0 ↔ ∃ d ∈ c, t ∈ d := by
  rw [computeDf_eq, ← Nat.pos_iff_ne_zero, List.countP_pos_iff]
  simp

/-- The non-empty branch of BM25Engine.fit written out: every derived field
is a function of the new corpus (and the construction parameters) alone. -/
theorem BM25Engine.fit_of_ne (s : BM25Engine) (c : List (List String)) (hc : c ≠ []) :
    s.fit c =
      { k1 := s.k1, b := s.b, corpus := c, N := c.length,
        doc_lengths := c.map List.length,
        avgdl := (((c.map List.length).foldl (· + ·) 0 : ℕ) : ℝ) / (c.length : ℝ),
        doc_freqs := computeDf c,
        idf := BM25Engine.calculate_idf c.length (computeDf c),
        doc_term_freqs := c.map (fun doc => fun t => doc.count t) } := by
  simp [BM25Engine.fit, hc]

/-- Fitting the same corpus a second time does not change the state. -/
theorem BM25Engine.fit_fit (s : BM25Engine) (c : List (List String)) :
    (s.fit c).fit c = s.fit c := by
  by_cases hc : c = []
  · subst hc; simp [BM25Engine.fit]
  · rw [BM25Engine.fit_of_ne _ _ hc, BM25Engine.fit_of_ne _ _ hc]

/-! ### Lemmas about the IDF formula -/

theorem idfFormula_arg (N df : ℕ) :
    ((N : ℝ) - (df : ℝ) + 0.5) / ((df : ℝ) + 0.5) + 1 = ((N : ℝ) + 1) / ((df : ℝ) + 0.5) := by
  have h : ((df : ℝ) + 0.5) ≠ 0 := by positivity
  field_simp
  ring

theorem idfFormula_nonneg (N df : ℕ) (h2 : df ≤ N) : 0 ≤ idfFormula N df := by
  unfold idfFormula
  apply Real.log_nonneg
  rw [idfFormula_arg, le_div_iff₀ (by positivity)]
  have h : (df : ℝ) ≤ (N : ℝ) := Nat.cast_le.mpr h2
  linarith

theorem idfFormula_strict_anti (N d1 d2 : ℕ) (h : d1 < d2) :
    idfFormula N d2 < idfFormula N d1 := by
  unfold idfFormula
  rw [idfFormula_arg, idfFormula_arg]
  apply Real.log_lt_log (by positivity)
  apply div_lt_div_of_pos_left (by positivity) (by positivity)
  have hd : (d1 : ℝ) < (d2 : ℝ) := Nat.cast_lt.mpr h
  linarith

/-! ### Claim C1 -/

/-- C1 is false as stated: score only guards doc_idx >= N, so the negative
index -1 on an unfitted engine reaches self.doc_lengths[-1] on the empty
list and raises IndexError (modelled as none) instead of returning 0. -/
theorem claim1_counterexample :
    BM25Engine.score (BM25Engine.init 1.5 0.75) ["a"] (-1) = none := by
  simp [BM25Engine.score, BM25Engine.init, pyGet]

/-- The two per-document lists of the engine always have equal length: true
initially, and preserved by every fit (a non-empty fit rebuilds both from
the corpus, an empty re-fit touches neither).  This justifies the alignment
hypothesis of the third conjunct of the amended C1 for every state
reachable by init and fit. -/
theorem aligned_init (k1 b : ℝ) :
    (BM25Engine.init k1 b).doc_term_freqs.length = (BM25Engine.init k1 b).doc_lengths.length :=
  rfl

theorem aligned_fit (s : BM25Engine) (c : List (List String))
    (h : s.doc_term_freqs.length = s.doc_lengths.length) :
    (s.fit c).doc_term_freqs.length = (s.fit c).doc_lengths.length := by
  by_cases hc : c = []
  · subst hc
    simpa [BM25Engine.fit] using h
  · rw [BM25Engine.fit_of_ne _ _ hc]
    simp

/-- On an engine whose last fit was non-empty, both per-document lists have
length N; this justifies the hypotheses of the fourth conjunct of the
amended C1 on currently fitted engines (after an empty re-fit N drops to 0
while the lists keep their previous length, the case the third conjunct
covers). -/
theorem fit_lengths (s : BM25Engine) (c : List (List String)) (hc : c ≠ []) :
    (s.fit c).doc_lengths.length = (s.fit c).N
    ∧ (s.fit c).doc_term_freqs.length = (s.fit c).N := by
  rw [BM25Engine.fit_of_ne _ _ hc]
  constructor <;> simp

/-- C1 (amended): score(query, doc_index) returns 0 and raises no error for
every doc_index >= N, on every engine (unfitted, fitted, or left stale by
an empty re-fit).  A negative doc_index is NOT caught by the guard; Python
list indexing applies to the stored per-document lists, whose length L
equals N on a freshly initialised or non-emptily fitted engine but stays at
the previous corpus size after an empty re-fit (where N = 0):
a doc_index < -L raises IndexError; a doc_index in [-L, 0) succeeds and
returns the score of the STORED document at doc_index + L — on an engine
with L = N that is exactly score(query, doc_index + N), while on the stale
empty-refit engine it is a stale document score rather than 0 or an error. -/
theorem claim1_amended (s : BM25Engine) (query : List String) (i : Int) :
    ((s.N : Int) ≤ i → s.score query i = some 0)
    ∧ (i < -(s.doc_lengths.length : Int) → s.score query i = none)
    ∧ (s.doc_term_freqs.length = s.doc_lengths.length →
        -(s.doc_lengths.length : Int) ≤ i → i < 0 → ∃ v, s.score query i = some v)
    ∧ (s.doc_lengths.length = s.N → s.doc_term_freqs.length = s.N →
        -(s.N : Int) ≤ i → i < 0 →
        s.score query i = s.score query (i + (s.N : Int))) := by
  refine ⟨fun h => ?_, fun h => ?_, fun hal h1 h2 => ?_, fun hdl htf h1 h2 => ?_⟩
  · unfold BM25Engine.score
    rw [if_pos h]
  · have e1 : pyGet s.doc_lengths i = none := by
      unfold pyGet
      rw [if_neg (by omega), if_neg (by omega)]
    unfold BM25Engine.score
    rw [if_neg (by omega), e1]
  · have e1 : pyGet s.doc_lengths i =
        s.doc_lengths.get? ((i + (s.doc_lengths.length : Int)).toNat) := by
      unfold pyGet
      rw [if_neg (by omega), if_pos (by omega)]
    have e2 : pyGet s.doc_term_freqs i =
        s.doc_term_freqs.get? ((i + (s.doc_term_freqs.length : Int)).toNat) := by
      unfold pyGet
      rw [if_neg (by omega), if_pos (by omega)]
    unfold BM25Engine.score
    rw [if_neg (by omega), e1, e2]
    cases hga : s.doc_lengths.get? ((i + (s.doc_lengths.length : Int)).toNat) with
    | none =>
      have := List.get?_eq_none.mp hga
      omega
    | some dl =>
      cases hgb : s.doc_term_freqs.get? ((i + (s.doc_term_freqs.length : Int)).toNat) with
      | none =>
        have := List.get?_eq_none.mp hgb
        omega
      | some tfs => exact ⟨_, rfl⟩
  · have e1 : pyGet s.doc_lengths i = pyGet s.doc_lengths (i + (s.N : Int)) := by
      unfold pyGet
      rw [hdl, if_neg (by omega), if_pos (by omega), if_pos (by omega)]
    have e2 : pyGet s.doc_term_freqs i = pyGet s.doc_term_freqs (i + (s.N : Int)) := by
      unfold pyGet
      rw [htf, if_neg (by omega), if_pos (by omega), if_pos (by omega)]
    unfold BM25Engine.score
    rw [if_neg (by omega), if_neg (by omega), e1, e2]

/-- Witness for C1 (amended): the first, second and fourth conjuncts on a
concrete fitted engine with N = 2 and L = 2, and the third conjunct on the
stale engine left by an empty re-fit (N = 0, L = 1), where score(q, -1)
succeeds with a stale value instead of raising. -/
theorem claim1_amended_witness :
    ((BM25Engine.init 1.5 0.75).fit [["a"], ["b"]]).score ["a"] 5 = some 0
    ∧ ((BM25Engine.init 1.5 0.75).fit [["a"], ["b"]]).score ["a"] (-3) = none
    ∧ (∃ v, (((BM25Engine.init 1.5 0.75).fit [["a"]]).fit []).score ["a"] (-1) = some v)
    ∧ ((BM25Engine.init 1.5 0.75).fit [["a"], ["b"]]).score ["a"] (-1) =
        ((BM25Engine.init 1.5 0.75).fit [["a"], ["b"]]).score ["a"]
          (-1 + ((((BM25Engine.init 1.5 0.75).fit [["a"], ["b"]]).N : Int))) :=
  ⟨(claim1_amended _ ["a"] 5).1 (by decide),
   (claim1_amended _ ["a"] (-3)).2.1 (by decide),
   (claim1_amended _ ["a"] (-1)).2.2.1 (by decide) (by decide) (by decide),
   (claim1_amended _ ["a"] (-1)).2.2.2 (by decide) (by decide) (by decide) (by decide)⟩

/-! ### Claim C2 -/

/-- C2 is false as stated: re-fitting with an empty corpus returns early
and leaves the stale document-frequency map in place, so its key "a" is not
a term of the new (empty) corpus. -/
theorem claim2_counterexample :
    (((BM25Engine.init 1.5 0.75).fit [["a"]]).fit []).corpus = []
    ∧ (((BM25Engine.init 1.5 0.75).fit [["a"]]).fit []).N = 0
    ∧ (((BM25Engine.init 1.5 0.75).fit [["a"]]).fit []).doc_freqs "a" = 1 :=
  ⟨rfl, rfl, rfl⟩

/-- C2 (amended): after fit with a NON-empty corpus the claim holds: the
whole state is a function of the new corpus and the construction parameters
alone (no earlier state survives), the document-frequency keys are exactly
the terms of the corpus, and the IDF map is recomputed from the document
frequencies.  A re-fit with an empty corpus only resets corpus and N. -/
theorem claim2_amended (s1 s2 : BM25Engine) (c : List (List String))
    (hk : s1.k1 = s2.k1) (hb : s1.b = s2.b) (hc : c ≠ []) (t : String) :
    s1.fit c = s2.fit c
    ∧ ((s1.fit c).doc_freqs t ≠ 0 ↔ ∃ d ∈ c, t ∈ d)
    ∧ ((s1.fit c).doc_freqs t ≠ 0 →
        (s1.fit c).idf t = some (idfFormula c.length ((s1.fit c).doc_freqs t))) := by
  rw [BM25Engine.fit_of_ne _ _ hc, BM25Engine.fit_of_ne _ _ hc, hk, hb]
  refine ⟨rfl, computeDf_pos_iff c t, fun h => ?_⟩
  show BM25Engine.calculate_idf c.length (computeDf c) t =
    some (idfFormula c.length (computeDf c t))
  unfold BM25Engine.calculate_idf
  rw [if_neg h]

/-! ### Score lemmas for C5 -/

theorem scoreStep_ge (s : BM25Engine) (dl : ℕ) (tfs : String → ℕ) (term : String) (acc : ℝ)
    (hk : 0 ≤ s.k1) (hb0 : 0 ≤ s.b) (hb1 : s.b ≤ 1) (havg : 0 ≤ s.avgdl)
    (hidf : ∀ t v, s.idf t = some v → 0 ≤ v) :
    acc ≤ s.scoreStep dl tfs acc term := by
  unfold BM25Engine.scoreStep
  cases hi : s.idf term with
  | none => exact le_refl acc
  | some v =>
    dsimp only
    by_cases htf : tfs term = 0
    · simp [htf]
    · rw [if_neg htf]
      have hv : 0 ≤ v := hidf term v hi
      have hnum : (0 : ℝ) ≤ (tfs term : ℝ) * (s.k1 + 1) := by positivity
      have hinner : (0 : ℝ) ≤ 1 - s.b + s.b * (dl : ℝ) / s.avgdl := by
        have hq : (0 : ℝ) ≤ s.b * (dl : ℝ) / s.avgdl := by positivity
        linarith
      have hden : (0 : ℝ) ≤ (tfs term : ℝ) + s.k1 * (1 - s.b + s.b * (dl : ℝ) / s.avgdl) :=
        add_nonneg (Nat.cast_nonneg _) (mul_nonneg hk hinner)
      have hterm : 0 ≤ v * ((tfs term : ℝ) * (s.k1 + 1)) /
          ((tfs term : ℝ) + s.k1 * (1 - s.b + s.b * (dl : ℝ) / s.avgdl)) :=
        div_nonneg (mul_nonneg hv hnum) hden
      linarith

theorem scoreFold_ge (s : BM25Engine) (dl : ℕ) (tfs : String → ℕ) (q : List String)
    (hk : 0 ≤ s.k1) (hb0 : 0 ≤ s.b) (hb1 : s.b ≤ 1) (havg : 0 ≤ s.avgdl)
    (hidf : ∀ t v, s.idf t = some v → 0 ≤ v) :
    ∀ acc : ℝ, acc ≤ q.foldl (s.scoreStep dl tfs) acc := by
  induction q with
  | nil => intro acc; simp
  | cons a t ih =>
    intro acc
    simp only [List.foldl_cons]
    exact le_trans (scoreStep_ge s dl tfs a acc hk hb0 hb1 havg hidf) (ih _)

theorem scoreFold_zero (s : BM25Engine) (dl : ℕ) (tfs : String → ℕ) (q : List String)
    (h : ∀ t ∈ q, tfs t = 0) :
    ∀ acc : ℝ, q.foldl (s.scoreStep dl tfs) acc = acc := by
  induction q with
  | nil => intro acc; simp
  | cons a t ih =>
    intro acc
    simp only [List.foldl_cons]
    have hstep : s.scoreStep dl tfs acc a = acc := by
      unfold BM25Engine.scoreStep
      cases s.idf a with
      | none => rfl
      | some v =>
        dsimp only
        rw [if_pos (h a (by simp))]
    rw [hstep]
    exact ih (fun x hx => h x (by simp [hx])) acc

/-- score at a valid index computes the query fold over the indexed
document data. -/
theorem score_of_valid (s : BM25Engine) (query : List String) (i : ℕ)
    (hi : i < s.N) (dl : ℕ) (tfs : String → ℕ)
    (h1 : s.doc_lengths.get? i = some dl) (h2 : s.doc_term_freqs.get? i = some tfs) :
    s.score query (i : Int) = some (query.foldl (s.scoreStep dl tfs) 0) := by
  unfold BM25Engine.score
  rw [if_neg (by omega)]
  unfold pyGet
  rw [if_pos (by omega), if_pos (by omega)]
  simp only [Int.toNat_natCast]
  rw [h1, h2]

/-- Witness for C2 (amended) on two engines with different histories and a
concrete two-document corpus. -/
theorem claim2_amended_witness :
    (BM25Engine.init 1.5 0.75).fit [["a"], ["a", "b"]] =
        ((BM25Engine.init 1.5 0.75).fit [["x"]]).fit [["a"], ["a", "b"]]
    ∧ (((BM25Engine.init 1.5 0.75).fit [["a"], ["a", "b"]]).doc_freqs "b" ≠ 0 ↔
        ∃ d ∈ [["a"], ["a", "b"]], "b" ∈ d)
    ∧ (((BM25Engine.init 1.5 0.75).fit [["a"], ["a", "b"]]).doc_freqs "b" ≠ 0 →
        ((BM25Engine.init 1.5 0.75).fit [["a"], ["a", "b"]]).idf "b" =
          some (idfFormula 2 (((BM25Engine.init 1.5 0.75).fit [["a"], ["a", "b"]]).doc_freqs "b"))) :=
  claim2_amended (BM25Engine.init 1.5 0.75) ((BM25Engine.init 1.5 0.75).fit [["x"]])
    [["a"], ["a", "b"]] rfl rfl (by decide) "b"

/-! ### Claim C5 -/

/-- C5: for a fitted corpus with the standard parameter ranges k1 >= 0 and
0 <= b <= 1 (the construction defaults are 1.5 and 0.75), the BM25 score of
every valid document index is defined, non-negative, and exactly 0 whenever
no query token occurs in that document. -/
theorem claim5_score_nonneg (c : List (List String)) (k1 b : ℝ) (query : List String)
    (i : ℕ) (doc : List String)
    (hk : 0 ≤ k1) (hb0 : 0 ≤ b) (hb1 : b ≤ 1) (hdoc : c.get? i = some doc) :
    ∃ v, ((BM25Engine.init k1 b).fit c).score query (i : Int) = some v
      ∧ 0 ≤ v ∧ ((∀ t ∈ query, t ∉ doc) → v = 0) := by
  have hi : i < c.length := by
    by_contra hcon
    push_neg at hcon
    rw [List.get?_eq_none.mpr hcon] at hdoc
    exact absurd hdoc (by simp)
  have hc : c ≠ [] := by
    intro h
    subst h
    simp at hi
  have hfit := BM25Engine.fit_of_ne (BM25Engine.init k1 b) c hc
  have hN : ((BM25Engine.init k1 b).fit c).N = c.length := by rw [hfit]
  have h1 : ((BM25Engine.init k1 b).fit c).doc_lengths.get? i = some doc.length := by
    rw [hfit]
    show (c.map List.length).get? i = some doc.length
    rw [List.get?_map, hdoc]
    rfl
  have h2 : ((BM25Engine.init k1 b).fit c).doc_term_freqs.get? i =
      some (fun t => doc.count t) := by
    rw [hfit]
    show (c.map (fun doc => fun t => doc.count t)).get? i = some (fun t => doc.count t)
    rw [List.get?_map, hdoc]
    rfl
  rw [score_of_valid _ query i (by omega) doc.length (fun t => doc.count t) h1 h2]
  have hk1 : ((BM25Engine.init k1 b).fit c).k1 = k1 := by rw [hfit]; rfl
  have hb : ((BM25Engine.init k1 b).fit c).b = b := by rw [hfit]; rfl
  have havg : 0 ≤ ((BM25Engine.init k1 b).fit c).avgdl := by
    rw [hfit]
    show (0 : ℝ) ≤ (((c.map List.length).foldl (· + ·) 0 : ℕ) : ℝ) / (c.length : ℝ)
    positivity
  have hidf : ∀ t v, ((BM25Engine.init k1 b).fit c).idf t = some v → 0 ≤ v := by
    intro t v hv
    rw [hfit] at hv
    replace hv : BM25Engine.calculate_idf c.length (computeDf c) t = some v := hv
    unfold BM25Engine.calculate_idf at hv
    by_cases hz : computeDf c t = 0
    · rw [if_pos hz] at hv
      exact absurd hv (by simp)
    · rw [if_neg hz] at hv
      have hvv : v = idfFormula c.length (computeDf c t) := by
        exact (Option.some_inj.mp hv).symm
      rw [hvv]
      exact idfFormula_nonneg c.length (computeDf c t) (computeDf_le c t)
  refine ⟨_, rfl, ?_, ?_⟩
  · exact scoreFold_ge _ _ _ query (by rw [hk1]; exact hk) (by rw [hb]; exact hb0)
      (by rw [hb]; exact hb1) havg hidf 0
  · intro hdisj
    exact scoreFold_zero _ _ _ query (fun t ht => List.count_eq_zero.mpr (hdisj t ht)) 0

/-- Witness for C5 on a concrete corpus: the query token does not occur in
document 0, so its score is defined, non-negative, and forced to 0. -/
theorem claim5_score_nonneg_witness :
    ∃ v, ((BM25Engine.init 1.5 0.75).fit [["a"], ["b"]]).score ["b"] ((0 : ℕ) : Int) = some v
      ∧ 0 ≤ v ∧ ((∀ t ∈ ["b"], t ∉ ["a"]) → v = 0) :=
  claim5_score_nonneg [["a"], ["b"]] 1.5 0.75 ["b"] 0 ["a"]
    (by norm_num) (by norm_num) (by norm_num) rfl

/-! ### Claim C6 -/

/-- C6: for max_distance > 0, calculate_distance_score is monotonically
non-increasing in the distance, exactly 0 at or beyond max_distance, and
equal to the linear decay max(0, 1 - d / max_distance) on [0, max_distance). -/
theorem claim6_distance_score (max_distance d1 d2 : ℝ) (hmax : 0 < max_distance)
    (h12 : d1 ≤ d2) :
    calculate_distance_score d2 max_distance ≤ calculate_distance_score d1 max_distance
    ∧ (max_distance ≤ d2 → calculate_distance_score d2 max_distance = 0)
    ∧ (0 ≤ d1 → d1 < max_distance →
        calculate_distance_score d1 max_distance = max 0 (1 - d1 / max_distance)) := by
  unfold calculate_distance_score
  refine ⟨?_, fun h => by rw [if_pos h], fun h0 hlt => ?_⟩
  · by_cases h2 : max_distance ≤ d2
    · rw [if_pos h2]
      by_cases h1 : max_distance ≤ d1
      · rw [if_pos h1]
      · rw [if_neg h1]
        exact le_max_left 0 _
    · have h1 : ¬ max_distance ≤ d1 := fun hh => h2 (hh.trans h12)
      rw [if_neg h2, if_neg h1]
      have hdiv : d1 / max_distance ≤ d2 / max_distance := (div_le_div_right hmax).mpr h12
      have hsub : 1 - d2 / max_distance ≤ 1 - d1 / max_distance := by linarith
      exact max_le_max (le_refl 0) (min_le_min (le_refl 1) hsub)
  · rw [if_neg (not_le.mpr hlt)]
    have hd : 0 ≤ d1 / max_distance := div_nonneg h0 hmax.le
    rw [min_eq_right (by linarith : 1 - d1 / max_distance ≤ 1)]

/-- Witness for C6 at max_distance = 10, distances 3 and 12. -/
theorem claim6_distance_score_witness :
    calculate_distance_score 12 10 ≤ calculate_distance_score 3 10
    ∧ calculate_distance_score 12 10 = 0
    ∧ calculate_distance_score 3 10 = max 0 (1 - 3 / 10) := by
  have h := claim6_distance_score 10 3 12 (by norm_num) (by norm_num)
  exact ⟨h.1, h.2.1 (by norm_num), h.2.2 (by norm_num) (by norm_num)⟩

/-! ### Claim C7 -/

/-- C7: on a fitted engine, the IDF value of a term with smaller document
frequency is strictly larger: idf is strictly decreasing in df for fixed N. -/
theorem claim7_idf_strict_decreasing (c : List (List String)) (k1 b : ℝ) (t1 t2 : String)
    (h1 : 1 ≤ ((BM25Engine.init k1 b).fit c).doc_freqs t1)
    (h2 : ((BM25Engine.init k1 b).fit c).doc_freqs t1 <
      ((BM25Engine.init k1 b).fit c).doc_freqs t2) :
    ∃ v1 v2, ((BM25Engine.init k1 b).fit c).idf t1 = some v1
      ∧ ((BM25Engine.init k1 b).fit c).idf t2 = some v2 ∧ v2 < v1 := by
  by_cases hc : c = []
  · subst hc
    replace h1 : (1 : ℕ) ≤ 0 := h1
    omega
  · rw [BM25Engine.fit_of_ne _ _ hc] at h1 h2 ⊢
    replace h1 : 1 ≤ computeDf c t1 := h1
    replace h2 : computeDf c t1 < computeDf c t2 := h2
    show ∃ v1 v2, BM25Engine.calculate_idf c.length (computeDf c) t1 = some v1
      ∧ BM25Engine.calculate_idf c.length (computeDf c) t2 = some v2 ∧ v2 < v1
    unfold BM25Engine.calculate_idf
    rw [if_neg (by omega), if_neg (by omega)]
    exact ⟨_, _, rfl, rfl, idfFormula_strict_anti c.length _ _ h2⟩

/-- Witness for C7: df("b") = 1 < df("a") = 2 in a two-document corpus. -/
theorem claim7_idf_strict_decreasing_witness :
    ∃ v1 v2, ((BM25Engine.init 1.5 0.75).fit [["a"], ["a", "b"]]).idf "b" = some v1
      ∧ ((BM25Engine.init 1.5 0.75).fit [["a"], ["a", "b"]]).idf "a" = some v2 ∧ v2 < v1 :=
  claim7_idf_strict_decreasing [["a"], ["a", "b"]] 1.5 0.75 "b" "a" (by decide) (by decide)

/-! ### Claim C8 -/

/-- C8: precision_at_k is 0 when k <= 0 or the label sequence is empty;
for k > 0 it is the number of true labels among the first k entries divided
by k itself (the divisor stays k when k exceeds the length); and it always
lies in [0, 1]. -/
theorem claim8_precision_at_k (relevance : List Bool) (k : Int) :
    ((k ≤ 0 ∨ relevance = []) → Evaluator.precision_at_k relevance k = 0)
    ∧ (0 < k →
        Evaluator.precision_at_k relevance k =
          ((relevance.take k.toNat).countP id : ℚ) / (k : ℚ))
    ∧ 0 ≤ Evaluator.precision_at_k relevance k
    ∧ Evaluator.precision_at_k relevance k ≤ 1 := by
  unfold Evaluator.precision_at_k
  by_cases h : k ≤ 0 ∨ relevance = []
  · rw [if_pos h]
    refine ⟨fun _ => rfl, fun hk => ?_, le_refl 0, by norm_num⟩
    rcases h with h | h
    · omega
    · subst h
      simp
  · rw [if_neg h]
    push_neg at h
    obtain ⟨hk0, hne⟩ := h
    have hkpos : 0 < k := by omega
    have hkq : (0 : ℚ) < (k : ℚ) := by exact_mod_cast hkpos
    have hcount : (relevance.take k.toNat).countP id ≤ k.toNat :=
      le_trans (List.countP_le_length _) (by rw [List.length_take]; exact min_le_left _ _)
    have hcast : (((relevance.take k.toNat).countP id : ℕ) : ℚ) ≤ ((k.toNat : ℕ) : ℚ) :=
      Nat.cast_le.mpr hcount
    have htn : ((k.toNat : ℕ) : ℚ) = (k : ℚ) := by
      have := Int.toNat_of_nonneg (le_of_lt hkpos)
      exact_mod_cast congrArg (fun z : ℤ => (z : ℚ)) this
    refine ⟨fun hcon => ?_, fun _ => rfl, ?_, ?_⟩
    · rcases hcon with hcon | hcon
      · omega
      · exact absurd hcon hne
    · exact div_nonneg (Nat.cast_nonneg _) (le_of_lt hkq)
    · rw [div_le_one hkq]
      rw [htn] at hcast
      exact hcast

/-- Witness for C8 on the labels of spec Scenario D with k = 5:
precision is 2/5 and within bounds. -/
theorem claim8_precision_at_k_witness :
    Evaluator.precision_at_k [true, false, true, false, false] 5 =
      (([true, false, true, false, false].take (5 : Int).toNat).countP id : ℚ) / ((5 : Int) : ℚ)
    ∧ 0 ≤ Evaluator.precision_at_k [true, false, true, false, false] 5
    ∧ Evaluator.precision_at_k [true, false, true, false, false] 5 ≤ 1 := by
  have h := claim8_precision_at_k [true, false, true, false, false] 5
  exact ⟨h.2.1 (by norm_num), h.2.2.1, h.2.2.2⟩

/-! ### Lemmas about the rank tail for C3 and C10 -/

theorem zipRank_map_final (l : List ResultRow) :
    ∀ start : ℕ,
      ((l.zipWith (fun rr k => { rr with rank := k }) (List.range' start l.length)).map
        (fun rr => rr.final_score)) = l.map (fun rr => rr.final_score) := by
  induction l with
  | nil => intro start; rfl
  | cons a t ih =>
    intro start
    rw [List.length_cons, List.range'_succ]
    simp only [List.zipWith_cons_cons, List.map_cons]
    rw [ih (start + 1)]

theorem zipRank_map_rank (l : List ResultRow) :
    ∀ start : ℕ,
      ((l.zipWith (fun rr k => { rr with rank := k }) (List.range' start l.length)).map
        (fun rr => rr.rank)) = List.range' start l.length := by
  induction l with
  | nil => intro start; rfl
  | cons a t ih =>
    intro start
    rw [List.length_cons, List.range'_succ]
    simp only [List.zipWith_cons_cons, List.map_cons]
    rw [ih (start + 1)]

theorem zipRank_length (l : List ResultRow) (start : ℕ) :
    (l.zipWith (fun rr k => { rr with rank := k }) (List.range' start l.length)).length =
      l.length := by
  rw [List.length_zipWith, List.length_range']
  exact Nat.min_self _

/-- The finalize stage yields a list sorted by descending final score, of
length at most top_k, whose rank column is exactly 1, 2, ..., n. -/
theorem finalize_props (l : List ResultRow) (top_k : ℕ) :
    ((HeuristicRanker.finalize l top_k).map (fun rr => rr.final_score)).Sorted (· ≥ ·)
    ∧ (HeuristicRanker.finalize l top_k).length ≤ top_k
    ∧ (HeuristicRanker.finalize l top_k).map (fun rr => rr.rank) =
        List.range' 1 (HeuristicRanker.finalize l top_k).length := by
  unfold HeuristicRanker.finalize
  have hs : ((List.insertionSort finalGe l).take top_k).Sorted finalGe :=
    List.Pairwise.sublist (List.take_sublist _ _) (List.sorted_insertionSort finalGe l)
  refine ⟨?_, ?_, ?_⟩
  · rw [zipRank_map_final]
    exact (List.pairwise_map).mpr hs
  · rw [zipRank_length, List.length_take]
    exact min_le_left _ _
  · rw [zipRank_map_rank, zipRank_length]

/-! ### Claim C3 (partial: the provable parts) -/

/-- C3 (parts that hold): every rank result is sorted by fused final score
in descending order, truncated to at most top_k records, and carries dense
1-based ranks 1, 2, ..., n.  The stability part of C3 is NOT established:
the source sorts with the pandas default kind='quicksort', which is not a
stable sort, so tie order is not preserved by contract (see the rank model
note); this theorem deliberately says nothing about tie order. -/
theorem claim3_sorted_truncated_dense (s : HeuristicRanker) (query : String)
    (user_lat user_lon : Option ℝ) (store_filter : Option String) (top_k : ℕ)
    (require_text_match : Bool) :
    ((s.rank query user_lat user_lon store_filter top_k require_text_match).map
      (fun rr => rr.final_score)).Sorted (· ≥ ·)
    ∧ (s.rank query user_lat user_lon store_filter top_k require_text_match).length ≤ top_k
    ∧ (s.rank query user_lat user_lon store_filter top_k require_text_match).map
        (fun rr => rr.rank) =
      List.range' 1 (s.rank query user_lat user_lon store_filter top_k require_text_match).length := by
  unfold HeuristicRanker.rank
  cases s.df with
  | none => exact ⟨List.sorted_nil, by simp, rfl⟩
  | some rows =>
    by_cases hlen : rows.length = 0
    · simp only [if_pos hlen]
      exact ⟨List.sorted_nil, by simp, rfl⟩
    · simp only [if_neg hlen]
      exact finalize_props _ top_k

/-! ### Claim C9 -/

/-- C9: re-fitting the same dataset is the identity on the fitted state, and
ranking after a re-fit returns the same results; rank itself is modelled as
a pure function of the fitted state (the source method writes no instance
attribute), so two rank calls with identical arguments coincide
definitionally. -/
theorem claim9_refit_deterministic (s : HeuristicRanker) (rows : List Row) (query : String)
    (user_lat user_lon : Option ℝ) (store_filter : Option String) (top_k : ℕ)
    (require_text_match : Bool) :
    (s.fit rows).fit rows = s.fit rows
    ∧ ((s.fit rows).fit rows).rank query user_lat user_lon store_filter top_k require_text_match
      = (s.fit rows).rank query user_lat user_lon store_filter top_k require_text_match := by
  have hfit : (s.fit rows).fit rows = s.fit rows := by
    unfold HeuristicRanker.fit
    dsimp only
    rw [BM25Engine.fit_fit]
  exact ⟨hfit, by rw [hfit]⟩

/-! ### Claim C10 -/

theorem score_nil_getD (s : BM25Engine) (i : Int) : (s.score [] i).getD 0 = 0 := by
  unfold BM25Engine.score
  by_cases hN : (s.N : Int) ≤ i
  · rw [if_pos hN]
    rfl
  · rw [if_neg hN]
    rcases pyGet s.doc_lengths i with _ | dl
    · rfl
    · rcases pyGet s.doc_term_freqs i with _ | tfs
      · rfl
      · rfl

theorem get_all_scores_nil (s : BM25Engine) :
    s.get_all_scores [] = List.replicate s.N 0 := by
  unfold BM25Engine.get_all_scores
  apply List.eq_replicate.mpr
  constructor
  · rw [List.length_map, List.length_range]
  · intro x hx
    rw [List.mem_map] at hx
    obtain ⟨i, _, hx⟩ := hx
    rw [← hx]
    exact score_nil_getD s i

theorem getD_replicate_zero : ∀ n i : ℕ, (List.replicate n (0 : ℝ)).getD i 0 = 0 := by
  intro n
  induction n with
  | zero => intro i; rfl
  | succ m ih =>
    intro i
    cases i with
    | zero => rfl
    | succ j =>
      rw [List.replicate_succ, List.getD_cons_succ]
      exact ih j

/-- With an empty token list every annotated row carries BM25 score 0. -/
theorem annotate_bm25_zero (s : HeuristicRanker) (rows : List Row)
    (user_lat user_lon : Option ℝ) (rr : ResultRow)
    (hrr : rr ∈ s.annotate rows [] user_lat user_lon) : rr.bm25_score = 0 := by
  unfold HeuristicRanker.annotate at hrr
  rw [List.mem_map] at hrr
  obtain ⟨i, _, heq⟩ := hrr
  rw [← heq]
  dsimp only
  rw [get_all_scores_nil]
  exact getD_replicate_zero _ _

/-- The store-filter step never adds rows. -/
theorem storeFilter_subset (l : List ResultRow) (sf : Option String) :
    ∀ rr ∈ (match sf with
      | some f =>
        if f != "" && f != "Semua" then l.filter (fun rr : ResultRow => rr.row.store == f) else l
      | none => l), rr ∈ l := by
  intro rr hrr
  cases sf with
  | none => exact hrr
  | some f =>
    dsimp only at hrr
    by_cases hf : (f != "" && f != "Semua") = true
    · rw [if_pos hf] at hrr
      exact (List.mem_filter.mp hrr).1
    · rw [if_neg hf] at hrr
      exact hrr

/-- If every row has BM25 score 0, the text-match filter empties the result. -/
theorem applyFilters_text_match_nil (l : List ResultRow) (sf : Option String)
    (hz : ∀ rr ∈ l, rr.bm25_score = 0) :
    HeuristicRanker.applyFilters l sf true = [] := by
  unfold HeuristicRanker.applyFilters
  dsimp only
  rw [if_pos rfl]
  apply List.filter_eq_nil.mpr
  intro rr hrr
  have hmem : rr ∈ l := storeFilter_subset l sf rr hrr
  rw [hz rr hmem]
  simp

/-- C10: when the query tokenizes to nothing (empty string, stopwords-only
or one-character tokens), every document's BM25 score is 0 and rank with
require_text_match = true returns the empty result set. -/
theorem claim10_empty_query_rank_empty (s : HeuristicRanker) (query : String)
    (user_lat user_lon : Option ℝ) (store_filter : Option String) (top_k : ℕ)
    (h : preprocess_query query = []) :
    s.bm25.get_all_scores (preprocess_query query) = List.replicate s.bm25.N 0
    ∧ s.rank query user_lat user_lon store_filter top_k true = [] := by
  refine ⟨by rw [h]; exact get_all_scores_nil s.bm25, ?_⟩
  unfold HeuristicRanker.rank
  cases s.df with
  | none => rfl
  | some rows =>
    dsimp only
    by_cases hlen : rows.length = 0
    · rw [if_pos hlen]
    · rw [if_neg hlen, h,
        applyFilters_text_match_nil _ store_filter
          (fun rr hrr => annotate_bm25_zero s rows user_lat user_lon rr hrr)]
      unfold HeuristicRanker.finalize
      simp

/-! ### Claim C4 -/

/-- The per-row labelling rule of determine_relevance in the has_query case
is exactly the conjunction of the primary median criterion and the three
vetoes. -/
theorem isRelevantRow_query_iff (hl mA mI : Bool) (th fst pt mr strict : ℝ) (rr : ResultRow) :
    HeuristicRanker.isRelevantRow true hl mA mI th fst pt mr strict rr = true ↔
      (¬(rr.bm25_score ≤ th)
        ∧ (hl = true → ¬(strict < rr.distance_km))
        ∧ (mA = true → pyIn "alfamart" (pyLower rr.row.store) = true)
        ∧ (mI = true → pyIn "indomaret" (pyLower rr.row.store) = true)) := by
  unfold HeuristicRanker.isRelevantRow
  dsimp only
  cases hl <;> cases mA <;> cases mI <;>
    cases hpA : pyIn "alfamart" (pyLower rr.row.store) <;>
    cases hpI : pyIn "indomaret" (pyLower rr.row.store) <;>
    by_cases h1 : rr.bm25_score ≤ th <;>
    by_cases h2 : strict < rr.distance_km <;>
    simp [h1, h2, hpA, hpI]

/-- C4: with a non-empty result set and a non-blank query, a record is
labeled relevant iff its raw BM25 score strictly exceeds the median raw
BM25 score of the result set, AND (when a reference coordinate is given)
its distance does not exceed half the max distance, AND (when the query
mentions a store by name or alias) its store matches — the vetoes are
conjunctive with the primary median criterion. -/
theorem claim4_relevance_iff (result_df : List ResultRow) (query : String)
    (user_lat user_lon : Option ℝ) (max_distance : Option ℝ) (i : ℕ) (rr : ResultRow)
    (h0 : result_df ≠ []) (hq : pyStrip query ≠ "")
    (hrr : result_df.get? i = some rr) :
    (HeuristicRanker.determine_relevance result_df query user_lat user_lon max_distance).get? i
        = some true
    ↔ (npMedian (result_df.map (fun r => r.bm25_score)) < rr.bm25_score
       ∧ ((user_lat.isSome && user_lon.isSome) = true →
           rr.distance_km ≤ (max_distance.getD MAX_DISTANCE_KM) * 0.5)
       ∧ ((pyIn "alfamart" (pyLower query) || pyIn "alfa" (pyLower query)) = true →
           pyIn "alfamart" (pyLower rr.row.store) = true)
       ∧ ((pyIn "indomaret" (pyLower query) || pyIn "indo" (pyLower query)) = true →
           pyIn "indomaret" (pyLower rr.row.store) = true)) := by
  have hq1 : (pyStrip query != "") = true := by simp [hq]
  have hne : (result_df.map (fun rr => rr.bm25_score)).isEmpty = false := by
    cases result_df with
    | nil => exact absurd rfl h0
    | cons a t => rfl
  unfold HeuristicRanker.determine_relevance
  dsimp only
  rw [hq1, hne]
  simp only [Bool.not_false, Bool.and_self, if_pos rfl]
  rw [List.get?_map, hrr]
  simp only [Option.map_some']
  rw [Option.some_inj, isRelevantRow_query_iff]
  simp only [not_le, not_lt, if_true]

/-- Witness for C4: two concrete result rows with BM25 scores 4 and 0 and
the query "alfamart"; the first row is labeled relevant. -/
theorem claim4_relevance_iff_witness :
    (HeuristicRanker.determine_relevance [witnessResultA, witnessResultB] "alfamart"
        none none none).get? 0 = some true := by
  apply (claim4_relevance_iff [witnessResultA, witnessResultB] "alfamart" none none none
    0 witnessResultA (by simp) (by decide) rfl).mpr
  refine ⟨?_, ?_, ?_, ?_⟩
  · show npMedian [witnessResultA.bm25_score, witnessResultB.bm25_score] <
      witnessResultA.bm25_score
    norm_num [npMedian, witnessResultA, witnessResultB, List.insertionSort, List.orderedInsert]
  · intro h
    simp at h
  · intro _
    decide
  · intro h
    exact absurd h (by decide)

/-- Witness for C10: a one-row fitted ranker and the query "a", whose only
token is dropped for being a single character. -/
theorem claim10_empty_query_rank_empty_witness :
    ((HeuristicRanker.init WEIGHTS).fit [defaultRow]).bm25.get_all_scores (preprocess_query "a")
      = List.replicate ((HeuristicRanker.init WEIGHTS).fit [defaultRow]).bm25.N 0
    ∧ ((HeuristicRanker.init WEIGHTS).fit [defaultRow]).rank "a" none none none 50 true = [] :=
  claim10_empty_query_rank_empty _ "a" none none none 50 (by decide)

end SRUAS
